import Mathlib

/-!
Verification of the AI Weekend Travel Buddy repository against its
natural-language specification.  The repository sources contain the React
presentation layer (TravelForm, ItineraryDisplay, BudgetBreakdown, DayPlan,
WeatherForecast components and the api service) together with build and
deployment scripts.  The orchestration and caching backend described by the
specification (orchestrator, fingerprint builder, cache store, external
source gateway, agent runner, itinerary assembler) is not part of the
checked-in sources; where a claim depends on it, the corresponding
definitions are modelled from the specification text and marked as such in
their documentation comments.  Money amounts are modelled as rationals and
timestamps as natural numbers of seconds.
-/

namespace TravelBuddy

/-! ## Data model -/

/-- Budget category enumeration, from the spec data model (section 3) and the
form default value moderate in TravelForm. -/
inductive BudgetCategory
| budget
| moderate
| luxury
deriving DecidableEq, Repr, Inhabited

/-- A travel request, following the spec data model (section 3) and the
payload assembled by handleSubmit in TravelForm: destination, budget,
budget category, travel preferences, start date, group size and optional
special requirements.  Dates are day numbers, money is rational. -/
structure Request where
  destination : String
  budget : ℚ
  budget_category : BudgetCategory
  travel_preferences : List String
  start_date : Nat
  group_size : Nat
  special_requirements : Option String
deriving DecidableEq, Repr, Inhabited

/-- An activity as consumed by the DayPlan component: name, category,
location, entry fee, estimated duration in minutes and popularity score. -/
structure Activity where
  name : String
  category : String
  location : String
  entry_fee : ℚ
  estimated_duration : Nat
  popularity_score : ℚ
deriving DecidableEq, Repr, Inhabited

/-- A restaurant as consumed by the DayPlan component: name, cuisine type,
location, estimated cost per person and rating. -/
structure Restaurant where
  name : String
  cuisine_type : String
  location : String
  estimated_cost_per_person : ℚ
  rating : ℚ
deriving DecidableEq, Repr, Inhabited

/-- A single day plan as consumed by the DayPlan component: date, the three
day-part activity lists, optional lunch and dinner, and the derived total
estimated cost for that day. -/
structure DayPlan where
  date : Nat
  morning_activities : List Activity
  afternoon_activities : List Activity
  evening_activities : List Activity
  lunch : Option Restaurant
  dinner : Option Restaurant
  total_estimated_cost : ℚ
deriving DecidableEq, Repr, Inhabited

/-- Budget breakdown as consumed by the BudgetBreakdown component: total
budget and the five category allocations. -/
structure BudgetBreakdown where
  total_budget : ℚ
  accommodation : ℚ
  transportation : ℚ
  food : ℚ
  activities : ℚ
  miscellaneous : ℚ
deriving DecidableEq, Repr, Inhabited

/-- The final itinerary document as consumed by the ItineraryDisplay
component and described in the spec data model (section 3). -/
structure Itinerary where
  destination : String
  total_budget : ℚ
  total_estimated_cost : ℚ
  budget_utilization_percentage : ℚ
  day_plans : List DayPlan
  budget_breakdown : BudgetBreakdown
  recommendations : List String
  emergency_contacts : List String
deriving DecidableEq, Repr, Inhabited

/-! ## Travel form submission (TravelForm component, src/unnamed/part_001)

The form state holds string values for every input.  A controlled number or
date input holds either the empty string or a string that parses to a value
of the declared type, so the embedding represents those fields as Option
values: none is the empty field, some v the parsed value.  The group size
input declares min 1, max 10 and the default step 1, so its non-empty
values are integers; it does not carry the required attribute, so the empty
value passes browser constraint validation. -/

structure FormData where
  destination : String
  budget : Option ℚ
  budget_category : String
  travel_preferences : List String
  start_date : Option Nat
  group_size : Option Int
  special_requirements : String
deriving DecidableEq, Repr, Inhabited

/-- Browser constraint validation induced by the input attributes in
TravelForm: destination select is required; budget input is required with
min 100; start date input is required with min set to the current date;
group size input has min 1 and max 10 but is not required, so an empty
value is valid. -/
def constraintValidation (f : FormData) (today : Nat) : Bool :=
  (f.destination != "") &&
  (match f.budget with
   | some v => decide (100 ≤ v)
   | none => false) &&
  (f.budget_category != "") &&
  (match f.start_date with
   | some d => decide (today ≤ d)
   | none => false) &&
  (match f.group_size with
   | some g => decide (1 ≤ g) && decide (g ≤ 10)
   | none => true)

/-- The validation checks performed by handleSubmit in TravelForm: it
rejects the submission when destination, budget or start date is empty, and
when the travel preferences list is empty. -/
def handleSubmitAccepts (f : FormData) : Bool :=
  !(f.destination == "" || f.budget.isNone || f.start_date.isNone) &&
  !(f.travel_preferences.length == 0)

/-- A submission goes through when it passes browser constraint validation
of the form inputs and the explicit checks in handleSubmit. -/
def formAccepts (f : FormData) (today : Nat) : Bool :=
  constraintValidation f today && handleSubmitAccepts f

/-! ## BudgetBreakdown percentage (src/unnamed/part_002) -/

/-- Division as performed by the component code, made explicit about the
division-by-zero hazard: none stands for the NaN or infinite result a
division by zero would produce. -/
def jsDiv (a b : ℚ) : Option ℚ :=
  if b = 0 then none else some (a / b)

/-- getPercentage from the BudgetBreakdown component: returns
amount / total * 100 when total is positive and 0 otherwise, so the
division only ever runs under the positivity guard. -/
def getPercentage (amount total : ℚ) : Option ℚ :=
  if 0 < total then (jsDiv amount total).map (fun x => x * 100) else some 0

/-! ## Theorems for the form and the percentage computation -/

/-- Claim C8: every Request accepted at the submission boundary has a
positive budget, a non-empty preference list and a start date not in the
past; handleSubmit rejects submissions missing destination, budget or start
date and rejects an empty travel preferences list, and the date input
forbids past dates. -/
theorem form_submission_invariant (f : FormData) (today : Nat)
    (h : formAccepts f today = true) :
    (∃ v, f.budget = some v ∧ 0 < v) ∧
    f.travel_preferences ≠ [] ∧
    (∃ d, f.start_date = some d ∧ today ≤ d) ∧
    f.destination ≠ "" := by
  unfold formAccepts constraintValidation handleSubmitAccepts at h
  simp only [Bool.and_eq_true, bne_iff_ne, ne_eq, Bool.not_eq_true',
    Bool.or_eq_false_iff, beq_eq_false_iff_ne, Option.isNone_eq_false_iff,
    decide_eq_true_eq] at h
  obtain ⟨⟨⟨⟨⟨hdest, hbud⟩, _hcat⟩, hdate⟩, _hgrp⟩, _, hpref⟩ := h
  refine ⟨?_, ?_, ?_, hdest⟩
  · cases hb : f.budget with
    | none => rw [hb] at hbud; exact absurd hbud (by simp)
    | some v =>
      rw [hb] at hbud
      simp only [decide_eq_true_eq] at hbud
      exact ⟨v, rfl, lt_of_lt_of_le (by norm_num) hbud⟩
  · intro hnil
    rw [hnil] at hpref
    simp at hpref
  · cases hd : f.start_date with
    | none => rw [hd] at hdate; exact absurd hdate (by simp)
    | some d =>
      rw [hd] at hdate
      simp only [decide_eq_true_eq] at hdate
      exact ⟨d, rfl, hdate⟩

/-- Concrete witness form: destination Paris, budget 500, one preference,
start date on day 7 with today being day 5, group size 2. -/
def witnessForm : FormData :=
  { destination := "Paris, France"
    budget := some 500
    budget_category := "moderate"
    travel_preferences := ["culture"]
    start_date := some 7
    group_size := some 2
    special_requirements := "" }

/-- Witness for claim C8 at a concrete accepted form. -/
theorem form_submission_invariant_witness :
    formAccepts witnessForm 5 = true ∧
    ((∃ v, witnessForm.budget = some v ∧ 0 < v) ∧
     witnessForm.travel_preferences ≠ [] ∧
     (∃ d, witnessForm.start_date = some d ∧ 5 ≤ d) ∧
     witnessForm.destination ≠ "") :=
  ⟨by decide, form_submission_invariant witnessForm 5 (by decide)⟩

/-- A form with the group size field cleared: every other field is filled
correctly, so browser validation and handleSubmit both accept it, while
parseInt of the empty string yields NaN for the submitted group size. -/
def emptyGroupSizeForm : FormData :=
  { destination := "Paris, France"
    budget := some 500
    budget_category := "moderate"
    travel_preferences := ["culture"]
    start_date := some 7
    group_size := none
    special_requirements := "" }

/-- Counterexample to claim C9 as stated: the form with a cleared group
size field is accepted although its group size is not an integer between 1
and 10 (parseInt of the empty string is NaN). -/
theorem group_size_claim_counterexample :
    formAccepts emptyGroupSizeForm 5 = true ∧
    ¬ ∃ g : Int, emptyGroupSizeForm.group_size = some g ∧ 1 ≤ g ∧ g ≤ 10 := by
  constructor
  · decide
  · rintro ⟨g, hg, -⟩
    simp [emptyGroupSizeForm] at hg

/-- Claim C9 (amended): every Request submitted through the travel form has
a group size that is either an integer between 1 and 10 inclusive or absent
(a cleared field, submitted as NaN by parseInt): the input enforces min 1
and max 10 on non-empty values, but the field is not required, so the empty
value also passes validation. -/
theorem group_size_bounds (f : FormData) (today : Nat)
    (h : formAccepts f today = true) :
    f.group_size = none ∨ ∃ g, f.group_size = some g ∧ 1 ≤ g ∧ g ≤ 10 := by
  unfold formAccepts constraintValidation at h
  simp only [Bool.and_eq_true, decide_eq_true_eq] at h
  obtain ⟨⟨⟨⟨⟨_, _⟩, _⟩, _⟩, hgrp⟩, _⟩ := h
  cases hg : f.group_size with
  | none => exact Or.inl rfl
  | some g =>
    rw [hg] at hgrp
    simp only [Bool.and_eq_true, decide_eq_true_eq] at hgrp
    exact Or.inr ⟨g, rfl, hgrp.1, hgrp.2⟩

/-- Witness for the amended claim C9 at a concrete accepted form with group
size 2. -/
theorem group_size_bounds_witness :
    formAccepts witnessForm 5 = true ∧
    (witnessForm.group_size = none ∨
     ∃ g, witnessForm.group_size = some g ∧ 1 ≤ g ∧ g ≤ 10) :=
  ⟨by decide, group_size_bounds witnessForm 5 (by decide)⟩

/-- Claim C10: the BudgetBreakdown percentage computation is division-safe:
it always yields a number (never the NaN or infinite result of a division
by zero), it returns 0 whenever the total is not positive, and it divides
only under the positivity guard. -/
theorem getPercentage_division_safe (amount total : ℚ) :
    (getPercentage amount total).isSome = true ∧
    (total ≤ 0 → getPercentage amount total = some 0) ∧
    (0 < total → getPercentage amount total = some (amount / total * 100)) := by
  unfold getPercentage jsDiv
  by_cases h : 0 < total
  · have hne : total ≠ 0 := ne_of_gt h
    refine ⟨by simp [h, hne], fun hle => absurd h (not_lt.mpr hle), fun _ => by simp [h, hne]⟩
  · exact ⟨by simp [h], fun _ => by simp [h], fun hlt => absurd hlt h⟩

/-- Witness for claim C10 at total -1 (not positive) and amount 5. -/
theorem getPercentage_division_safe_witness :
    (getPercentage 5 (-1)).isSome = true ∧ getPercentage 5 (-1) = some 0 :=
  ⟨(getPercentage_division_safe 5 (-1)).1,
   (getPercentage_division_safe 5 (-1)).2.1 (by norm_num)⟩

/-! ## Fingerprint and key builder

Modelled from the spec: the backend Fingerprint and Key Builder component
(spec sections 3 and 4.1) is not among the checked-in sources, which hold
only the presentation layer. -/

/-- Modelled from the spec: destination normalization of the missing
fingerprint builder, which is mandated to normalize case and whitespace
before hashing (spec section 4.1).  Whitespace characters are removed and
every remaining character is case-folded. -/
def normalizeDestination (s : String) : List Char :=
  (s.data.filter (fun c => !c.isWhitespace)).map Char.toLower

/-- Modelled from the spec: preference normalization of the missing
fingerprint builder, which sorts the preference tags (spec section 3). -/
def normalizePreferences (ps : List String) : List String :=
  List.insertionSort (fun a b => a ≤ b) ps

/-- Modelled from the spec: budget normalization of the missing fingerprint
builder, which rounds the budget to the nearest whole currency unit
(spec section 3). -/
def normalizeBudget (b : ℚ) : ℤ :=
  round b

/-- Serialization tag for a budget category. -/
def categoryTag : BudgetCategory → String
  | .budget => "budget"
  | .moderate => "moderate"
  | .luxury => "luxury"

/-- Modelled from the spec: the missing fingerprint function, a pure total
map from a normalized Request to a stable string key (spec section 4.1).
The stable hash is modelled by an injective serialization of the normalized
fields. -/
def fingerprint (r : Request) : String :=
  String.mk (normalizeDestination r.destination) ++ "|" ++
  String.intercalate "," (normalizePreferences r.travel_preferences) ++ "|" ++
  toString (normalizeBudget r.budget) ++ "|" ++
  categoryTag r.budget_category ++ "|" ++
  toString r.start_date ++ "|" ++
  toString r.group_size ++ "|" ++
  (r.special_requirements.getD "")

/-- Sorting with the total order on strings maps permuted lists to the same
sorted list. -/
theorem normalizePreferences_perm {p1 p2 : List String} (h : p1.Perm p2) :
    normalizePreferences p1 = normalizePreferences p2 := by
  unfold normalizePreferences
  exact List.eq_of_perm_of_sorted
    ((List.perm_insertionSort _ p1).trans (h.trans (List.perm_insertionSort _ p2).symm))
    (List.sorted_insertionSort _ p1) (List.sorted_insertionSort _ p2)

/-- Claim C2: two Requests that agree on all fields up to casing and
whitespace of the destination and up to ordering of the preference tags
receive the same fingerprint; fingerprint is a pure total function by
construction. -/
theorem fingerprint_respects_semantic_equality (r1 r2 : Request)
    (hdest : normalizeDestination r1.destination = normalizeDestination r2.destination)
    (hpref : r1.travel_preferences.Perm r2.travel_preferences)
    (hbud : r1.budget = r2.budget)
    (hcat : r1.budget_category = r2.budget_category)
    (hdate : r1.start_date = r2.start_date)
    (hgrp : r1.group_size = r2.group_size)
    (hreq : r1.special_requirements = r2.special_requirements) :
    fingerprint r1 = fingerprint r2 := by
  unfold fingerprint
  rw [hdest, normalizePreferences_perm hpref, hbud, hcat, hdate, hgrp, hreq]

/-- A request as submitted through the form. -/
def requestParisA : Request :=
  { destination := "Paris, France"
    budget := 500
    budget_category := .moderate
    travel_preferences := ["culture", "food"]
    start_date := 7
    group_size := 1
    special_requirements := none }

/-- The same request up to destination casing and whitespace and preference
ordering. -/
def requestParisB : Request :=
  { destination := "  paris,FRANCE "
    budget := 500
    budget_category := .moderate
    travel_preferences := ["food", "culture"]
    start_date := 7
    group_size := 1
    special_requirements := none }

/-- Witness for claim C2 at two concrete semantically equal requests. -/
theorem fingerprint_respects_semantic_equality_witness :
    normalizeDestination requestParisA.destination =
      normalizeDestination requestParisB.destination ∧
    requestParisA.travel_preferences.Perm requestParisB.travel_preferences ∧
    fingerprint requestParisA = fingerprint requestParisB :=
  ⟨by decide, by decide,
   fingerprint_respects_semantic_equality requestParisA requestParisB
     (by decide) (by decide) rfl rfl rfl rfl rfl⟩

/-! ## Cache store

Modelled from the spec: the backend Cache Store component (spec sections 3
and 4.2) is not among the checked-in sources. -/

/-- Modelled from the spec: a cache entry of the missing Cache Store, a
serialized itinerary together with its creation timestamp in seconds
(spec section 3). -/
structure CacheEntry where
  value : Itinerary
  written : Nat
deriving DecidableEq, Repr, Inhabited

/-- The cache time-to-live: one hour (spec sections 3 and 4.2). -/
def cacheTTL : Nat := 3600

/-- Modelled from the spec: the state of the missing Cache Store, an
association list from fingerprint keys to entries. -/
structure CacheStore where
  entries : List (String × CacheEntry)
deriving DecidableEq, Repr, Inhabited

/-- Association-list search for a key. -/
def cacheFind (k : String) : List (String × CacheEntry) → Option CacheEntry
  | [] => none
  | e :: es => if e.1 == k then some e.2 else cacheFind k es

/-- An entry is fresh at a given time when its age is strictly below the
time-to-live. -/
def freshAt (now : Nat) (e : CacheEntry) : Bool :=
  now - e.written < cacheTTL

/-- Modelled from the spec: put of the missing Cache Store, which stores the
itinerary with the write timestamp and overwrites any existing entry for
the key (spec section 4.2). -/
def CacheStore.put (c : CacheStore) (k : String) (v : Itinerary) (now : Nat) : CacheStore :=
  ⟨(k, ⟨v, now⟩) :: c.entries.filter (fun e => !(e.1 == k))⟩

/-- Modelled from the spec: get of the missing Cache Store, which returns
the cached value while fresh, treats an expired entry as absent and eagerly
evicts it (spec section 4.2).  The returned pair is the answer and the
store after the call. -/
def CacheStore.get (c : CacheStore) (k : String) (now : Nat) :
    Option Itinerary × CacheStore :=
  match cacheFind k c.entries with
  | some e =>
      if freshAt now e then (some e.value, c)
      else (none, ⟨c.entries.filter (fun p => !(p.1 == k))⟩)
  | none => (none, c)

/-- Searching a list from which every pair with the given key was filtered
out finds nothing. -/
theorem cacheFind_filter_ne (k : String) (l : List (String × CacheEntry)) :
    cacheFind k (l.filter (fun p => !(p.1 == k))) = none := by
  induction l with
  | nil => rfl
  | cons e es ih =>
      by_cases h : e.1 == k
      · simp [List.filter_cons, h, ih]
      · simp only [List.filter_cons, h, Bool.not_false, if_true]
        rw [cacheFind]
        simp [h, ih]

/-- Claim C3: an entry written at time T is returned by get at T plus 59
minutes and reported absent at T plus 61 minutes, the expired entry being
eagerly evicted from the store. -/
theorem cache_ttl_semantics (c : CacheStore) (k : String) (v : Itinerary) (T : Nat) :
    ((c.put k v T).get k (T + 59 * 60)).1 = some v ∧
    ((c.put k v T).get k (T + 61 * 60)).1 = none ∧
    cacheFind k (((c.put k v T).get k (T + 61 * 60)).2.entries) = none := by
  have hfind : cacheFind k ((c.put k v T).entries) = some ⟨v, T⟩ := by
    unfold CacheStore.put
    rw [cacheFind]
    simp
  have hfresh : freshAt (T + 59 * 60) ⟨v, T⟩ = true := by
    unfold freshAt cacheTTL
    simp [Nat.add_sub_cancel_left]
  have hstale : freshAt (T + 61 * 60) ⟨v, T⟩ = false := by
    unfold freshAt cacheTTL
    simp [Nat.add_sub_cancel_left]
  refine ⟨?_, ?_, ?_⟩
  · simp [CacheStore.get, hfind, hfresh]
  · simp [CacheStore.get, hfind, hstale]
  · simp [CacheStore.get, hfind, hstale, cacheFind_filter_ne]

/-! ## Orchestrator single-flight execution

Modelled from the spec: the backend Orchestrator with its per-fingerprint
execution lock registry (spec sections 4.5, 5 and 9) is not among the
checked-in sources.  Concurrency is modelled by the canonical interleaving
of the single-flight pattern: every caller of a batch arrives before the
in-flight execution settles, each arrival being one atomic step on the
shared registry. -/

/-- Hard errors of an orchestration run (spec section 7): assembly failure
or the global orchestration deadline being exceeded. -/
inductive HardError
| assembly
| orchestrationTimeout
deriving DecidableEq, Repr, Inhabited

/-- Observability counters recorded by the orchestration layer (spec
sections 4.2 and 8): cache hits, cache misses, joins of an in-flight
execution, and triggered fanouts. -/
structure OrchStats where
  hits : Nat
  misses : Nat
  joins : Nat
  fanouts : Nat
deriving DecidableEq, Repr, Inhabited

/-- Modelled from the spec: the shared state of the missing Orchestrator,
holding the cache store, the registry of in-flight fingerprints and the
stats counters (spec sections 4.5 and 5). -/
structure OrchState where
  cache : CacheStore
  inflight : List String
  stats : OrchStats
deriving DecidableEq, Repr, Inhabited

/-- Side-effect-free fresh lookup into the cache store, as used by the
orchestrator to resolve cache hits. -/
def lookupFresh (c : CacheStore) (k : String) (now : Nat) : Option Itinerary :=
  match cacheFind k c.entries with
  | some e => if freshAt now e then some e.value else none
  | none => none

/-- What a single arriving caller observes: a cache hit with the cached
itinerary, joining an in-flight execution, or acquiring the lock. -/
inductive ArrivalOutcome
| hit (it : Itinerary)
| joined
| acquired
deriving DecidableEq, Repr, Inhabited

/-- Modelled from the spec: one arrival step of the missing Orchestrator
(spec section 4.5).  A fresh cached value is a hit and terminal; otherwise
the caller joins an execution already in flight for the fingerprint, or
acquires the lock, registers the fingerprint and triggers the one fanout. -/
def arrive (s : OrchState) (fp : String) (now : Nat) : OrchState × ArrivalOutcome :=
  match lookupFresh s.cache fp now with
  | some it =>
      ({ s with stats := { s.stats with hits := s.stats.hits + 1 } }, .hit it)
  | none =>
      if s.inflight.contains fp then
        ({ s with stats := { s.stats with joins := s.stats.joins + 1 } }, .joined)
      else
        ({ s with
            inflight := fp :: s.inflight
            stats := { s.stats with
              misses := s.stats.misses + 1
              fanouts := s.stats.fanouts + 1 } }, .acquired)

/-- A batch of identical-fingerprint arrivals, each performed before the
in-flight execution settles. -/
def arriveBatch (s : OrchState) (fp : String) (now : Nat) : Nat → OrchState × List ArrivalOutcome
  | 0 => (s, [])
  | n + 1 =>
      let step := arrive s fp now
      let rest := arriveBatch step.1 fp now n
      (rest.1, step.2 :: rest.2)

/-- Modelled from the spec: settling of the in-flight execution (spec
sections 4.5 and 7).  A successful run writes the itinerary to the cache
store and releases the lock; a hard-error run only releases the lock and
writes nothing to the cache. -/
def settle (s : OrchState) (fp : String) (now : Nat)
    (r : Except HardError Itinerary) : OrchState :=
  match r with
  | .ok it =>
      { s with
          cache := s.cache.put fp it now
          inflight := s.inflight.filter (fun x => !(x == fp)) }
  | .error _ =>
      { s with inflight := s.inflight.filter (fun x => !(x == fp)) }

/-- The value delivered to one caller once the execution settles: a cache
hit returns the cached itinerary immediately, while the lock holder and
every joined caller receive the identical run result. -/
def deliver (o : ArrivalOutcome) (r : Except HardError Itinerary) :
    Except HardError Itinerary :=
  match o with
  | .hit it => .ok it
  | .joined => r
  | .acquired => r

/-- Modelled from the spec: one single-flight round of the missing
Orchestrator for n concurrent callers of one fingerprint whose run settles
with result r (spec sections 4.5, 5, 7 and 9): all callers arrive, the run
settles, and every caller is delivered its value. -/
def singleFlightRun (s : OrchState) (fp : String) (now : Nat) (n : Nat)
    (r : Except HardError Itinerary) :
    OrchState × List (Except HardError Itinerary) :=
  let batch := arriveBatch s fp now n
  (settle batch.1 fp now r, batch.2.map (fun o => deliver o r))

/-- Arrivals that find no fresh cache entry and the fingerprint already in
flight all join: the batch leaves cache and registry unchanged and only
counts the joins. -/
theorem arriveBatch_all_join (fp : String) (now : Nat) (k : Nat) :
    ∀ s : OrchState,
      lookupFresh s.cache fp now = none →
      s.inflight.contains fp = true →
      arriveBatch s fp now k =
        ({ s with stats := { s.stats with joins := s.stats.joins + k } },
         List.replicate k .joined) := by
  induction k with
  | zero =>
      intro s _ _
      simp [arriveBatch]
  | succ m ih =>
      intro s hmiss hin
      have hm : fp ∈ s.inflight := by simpa using hin
      have harr : arrive s fp now =
          ({ s with stats := { s.stats with joins := s.stats.joins + 1 } }, .joined) := by
        unfold arrive
        rw [hmiss]
        simp [hm]
      have hnext := ih { s with stats := { s.stats with joins := s.stats.joins + 1 } }
        hmiss hin
      unfold arriveBatch
      rw [harr]
      simp only [hnext, List.replicate_succ]
      have hjoins : s.stats.joins + 1 + m = s.stats.joins + (m + 1) := by omega
      rw [hjoins]

/-- Claim C1: single-flight guarantee.  For n concurrent callers of one
fingerprint with no fresh cache entry and no execution in flight, exactly
one fanout is triggered, every caller receives the identical itinerary
value, and the stats record exactly one cache miss, n minus 1 joins and no
hit. -/
theorem single_flight_guarantee (s : OrchState) (fp : String) (now : Nat)
    (n : Nat) (it : Itinerary)
    (hmiss : lookupFresh s.cache fp now = none)
    (hfree : s.inflight.contains fp = false)
    (hn : 1 ≤ n) :
    (singleFlightRun s fp now n (.ok it)).2 = List.replicate n (.ok it) ∧
    (singleFlightRun s fp now n (.ok it)).1.stats.fanouts = s.stats.fanouts + 1 ∧
    (singleFlightRun s fp now n (.ok it)).1.stats.misses = s.stats.misses + 1 ∧
    (singleFlightRun s fp now n (.ok it)).1.stats.joins = s.stats.joins + (n - 1) ∧
    (singleFlightRun s fp now n (.ok it)).1.stats.hits = s.stats.hits := by
  obtain ⟨m, rfl⟩ : ∃ m, n = m + 1 := ⟨n - 1, (Nat.succ_pred_eq_of_pos hn).symm⟩
  have harr : arrive s fp now =
      ({ s with
          inflight := fp :: s.inflight
          stats := { s.stats with
            misses := s.stats.misses + 1
            fanouts := s.stats.fanouts + 1 } }, .acquired) := by
    unfold arrive
    rw [hmiss]
    have hnm : fp ∉ s.inflight := by simpa using hfree
    simp [hnm]
  set s1 : OrchState :=
    { s with
        inflight := fp :: s.inflight
        stats := { s.stats with
          misses := s.stats.misses + 1
          fanouts := s.stats.fanouts + 1 } } with hs1
  have hjoin := arriveBatch_all_join fp now m s1
    (by rw [hs1]; exact hmiss)
    (by rw [hs1]; simp [List.contains_cons])
  have hbatch : arriveBatch s fp now (m + 1) =
      ({ s1 with stats := { s1.stats with joins := s1.stats.joins + m } },
       .acquired :: List.replicate m .joined) := by
    unfold arriveBatch
    rw [harr]
    simp only [hjoin]
  unfold singleFlightRun
  rw [hbatch]
  refine ⟨?_, ?_, ?_, ?_, ?_⟩
  · simp [deliver, List.map_replicate, List.replicate_succ]
  · simp [settle, hs1]
  · simp [settle, hs1]
  · simp [settle, hs1]
  · simp [settle, hs1]

/-- The empty orchestrator state. -/
def emptyOrch : OrchState :=
  { cache := ⟨[]⟩, inflight := [], stats := ⟨0, 0, 0, 0⟩ }

/-- A minimal concrete itinerary value used by witnesses. -/
def sampleItinerary : Itinerary :=
  { destination := "Paris, France"
    total_budget := 500
    total_estimated_cost := 0
    budget_utilization_percentage := 0
    day_plans := []
    budget_breakdown := ⟨500, 100, 100, 100, 100, 100⟩
    recommendations := []
    emergency_contacts := ["Local emergency services: 112"] }

/-- Witness for claim C1: three concurrent callers on the empty state. -/
theorem single_flight_guarantee_witness :
    lookupFresh emptyOrch.cache "key" 0 = none ∧
    emptyOrch.inflight.contains "key" = false ∧
    1 ≤ 3 ∧
    ((singleFlightRun emptyOrch "key" 0 3 (.ok sampleItinerary)).2 =
       List.replicate 3 (.ok sampleItinerary) ∧
     (singleFlightRun emptyOrch "key" 0 3 (.ok sampleItinerary)).1.stats.fanouts =
       emptyOrch.stats.fanouts + 1 ∧
     (singleFlightRun emptyOrch "key" 0 3 (.ok sampleItinerary)).1.stats.misses =
       emptyOrch.stats.misses + 1 ∧
     (singleFlightRun emptyOrch "key" 0 3 (.ok sampleItinerary)).1.stats.joins =
       emptyOrch.stats.joins + (3 - 1) ∧
     (singleFlightRun emptyOrch "key" 0 3 (.ok sampleItinerary)).1.stats.hits =
       emptyOrch.stats.hits) :=
  ⟨rfl, rfl, by norm_num,
   single_flight_guarantee emptyOrch "key" 0 3 sampleItinerary rfl rfl (by norm_num)⟩

/-- Claim C7: hard-error atomicity.  When the run for a fingerprint settles
with a hard error, the cache store is left exactly as it was, the identical
typed error is delivered to the lock holder and every joined caller, and no
caller is handed an itinerary as success. -/
theorem hard_error_atomicity (s : OrchState) (fp : String) (now : Nat)
    (n : Nat) (err : HardError)
    (hmiss : lookupFresh s.cache fp now = none)
    (hfree : s.inflight.contains fp = false)
    (hn : 1 ≤ n) :
    (singleFlightRun s fp now n (.error err)).1.cache = s.cache ∧
    (singleFlightRun s fp now n (.error err)).2 = List.replicate n (.error err) ∧
    ∀ it : Itinerary, Except.ok it ∉ (singleFlightRun s fp now n (.error err)).2 := by
  obtain ⟨m, rfl⟩ : ∃ m, n = m + 1 := ⟨n - 1, (Nat.succ_pred_eq_of_pos hn).symm⟩
  have harr : arrive s fp now =
      ({ s with
          inflight := fp :: s.inflight
          stats := { s.stats with
            misses := s.stats.misses + 1
            fanouts := s.stats.fanouts + 1 } }, .acquired) := by
    unfold arrive
    rw [hmiss]
    have hnm : fp ∉ s.inflight := by simpa using hfree
    simp [hnm]
  set s1 : OrchState :=
    { s with
        inflight := fp :: s.inflight
        stats := { s.stats with
          misses := s.stats.misses + 1
          fanouts := s.stats.fanouts + 1 } } with hs1
  have hjoin := arriveBatch_all_join fp now m s1
    (by rw [hs1]; exact hmiss)
    (by rw [hs1]; simp [List.contains_cons])
  have hbatch : arriveBatch s fp now (m + 1) =
      ({ s1 with stats := { s1.stats with joins := s1.stats.joins + m } },
       .acquired :: List.replicate m .joined) := by
    unfold arriveBatch
    rw [harr]
    simp only [hjoin]
  unfold singleFlightRun
  rw [hbatch]
  refine ⟨?_, ?_, ?_⟩
  · simp [settle, hs1]
  · simp [deliver, List.map_replicate, List.replicate_succ]
  · intro it hmem
    simp only [deliver, List.map_cons, List.map_replicate] at hmem
    rcases List.mem_cons.mp hmem with h | h
    · exact Except.noConfusion h
    · exact Except.noConfusion (List.eq_of_mem_replicate h)

/-- Witness for claim C7: three concurrent callers on the empty state with
an assembly hard error. -/
theorem hard_error_atomicity_witness :
    lookupFresh emptyOrch.cache "key" 0 = none ∧
    emptyOrch.inflight.contains "key" = false ∧
    1 ≤ 3 ∧
    ((singleFlightRun emptyOrch "key" 0 3 (.error .assembly)).1.cache = emptyOrch.cache ∧
     (singleFlightRun emptyOrch "key" 0 3 (.error .assembly)).2 =
       List.replicate 3 (.error .assembly) ∧
     ∀ it : Itinerary,
       Except.ok it ∉ (singleFlightRun emptyOrch "key" 0 3 (.error .assembly)).2) :=
  ⟨rfl, rfl, by norm_num,
   hard_error_atomicity emptyOrch "key" 0 3 .assembly rfl rfl (by norm_num)⟩

/-! ## External source gateway and itinerary assembler

Modelled from the spec: the backend External Source Gateway and Itinerary
Assembler components (spec sections 4.3 and 4.6) are not among the
checked-in sources; the WeatherForecast, Place and TransitInfo shapes follow
the frontend components that consume them. -/

/-- A single-day weather forecast as consumed by the WeatherForecast
component, extended with the rain probability the spec uses for
weather-derived recommendations. -/
structure WeatherForecast where
  date : Nat
  temperature : ℚ
  description : String
  humidity : ℚ
  wind_speed : ℚ
  rain_probability : ℚ
deriving DecidableEq, Repr, Inhabited

/-- A candidate place from the places source (spec data model section 3). -/
structure Place where
  name : String
  category : String
  rating : ℚ
  location : String
deriving DecidableEq, Repr, Inhabited

/-- Transit information from the transit source. -/
structure TransitInfo where
  summary : String
deriving DecidableEq, Repr, Inhabited

/-- The settled outcome of one external source call: a value, or a soft
failure standing for a timeout or error of that source (spec sections 4.3
and 7). -/
inductive SourceOutcome (α : Type)
| ok (value : α)
| failed
deriving DecidableEq, Repr

/-- Modelled from the spec: the per-request external data aggregate of the
missing gateway; each field is independently empty or absent to represent a
failed source, while the bundle itself always exists (spec section 3). -/
structure ExternalDataBundle where
  weather : List WeatherForecast
  places : List Place
  transit : Option TransitInfo
deriving DecidableEq, Repr, Inhabited

/-- Modelled from the spec: the missing External Source Gateway fan-in
(spec section 4.3).  It waits for all three sources to settle and returns
the bundle with whichever fields succeeded; a failed source contributes its
empty or absent default and raises the soft-failure flag, and the bundle is
never failed as a whole. -/
def gateway (w : SourceOutcome (List WeatherForecast))
    (p : SourceOutcome (List Place)) (t : SourceOutcome TransitInfo) :
    ExternalDataBundle × Bool :=
  let weather := match w with | .ok l => l | .failed => []
  let places := match p with | .ok l => l | .failed => []
  let transit := match t with | .ok i => some i | .failed => none
  let soft := (match w with | .ok _ => false | .failed => true) ||
              (match p with | .ok _ => false | .failed => true) ||
              (match t with | .ok _ => false | .failed => true)
  (⟨weather, places, transit⟩, soft)

/-- The typed result of one agent run (spec data model section 3). -/
inductive AgentResult (α : Type)
| success (payload : α)
| failure (reason : String)
deriving DecidableEq, Repr

/-- Whether an agent run failed. -/
def AgentResult.isFailure {α : Type} : AgentResult α → Bool
  | .success _ => false
  | .failure _ => true

/-- The activities produced by the Explorer agent, with the deterministic
empty default substituted for a failure (spec section 4.4). -/
def activitiesOf : AgentResult (List Activity) → List Activity
  | .success l => l
  | .failure _ => []

/-- The restaurants produced by the Food agent, with the deterministic
empty default substituted for a failure (spec section 4.4). -/
def restaurantsOf : AgentResult (List Restaurant) → List Restaurant
  | .success l => l
  | .failure _ => []

/-- The even five-way split used as the deterministic default when the
Budget agent fails (spec section 4.4). -/
def evenSplit (b : ℚ) : BudgetBreakdown :=
  ⟨b, b / 5, b / 5, b / 5, b / 5, b / 5⟩

/-- The budget breakdown of a run, with the even split substituted for a
Budget agent failure. -/
def breakdownOf (r : Request) : AgentResult BudgetBreakdown → BudgetBreakdown
  | .success bb => bb
  | .failure _ => evenSplit r.budget

/-- Removes later duplicates under a key, used to avoid assigning the same
venue twice (spec section 4.6). -/
def dedupBy {α : Type} (key : α → String) (l : List α) : List α :=
  l.foldl (fun acc a => if acc.any (fun b => key b == key a) then acc else acc ++ [a]) []

/-- The fee total of a list of assigned activities. -/
def activityFees (acts : List Activity) : ℚ :=
  (acts.map (fun a => a.entry_fee)).sum

/-- The per-person cost of an optional meal. -/
def mealCost : Option Restaurant → ℚ
  | some r => r.estimated_cost_per_person
  | none => 0

/-- Modelled from the spec: one day plan of the missing assembler, greedily
filling morning, afternoon and evening with one activity each from the
given ranked day slice and computing the derived day cost as entry fees
plus per-person meal costs times the group size (spec section 4.6). -/
def mkDayPlan (date : Nat) (g : Nat) (acts : List Activity)
    (lunch dinner : Option Restaurant) : DayPlan :=
  { date := date
    morning_activities := acts.take 1
    afternoon_activities := (acts.drop 1).take 1
    evening_activities := (acts.drop 2).take 1
    lunch := lunch
    dinner := dinner
    total_estimated_cost :=
      activityFees acts + (g : ℚ) * (mealCost lunch + mealCost dinner) }

/-- Day one of the trip: the first three deduplicated activities and the
first two deduplicated restaurants. -/
def dayOne (r : Request) (acts : List Activity) (rests : List Restaurant) : DayPlan :=
  mkDayPlan r.start_date r.group_size (acts.take 3) rests[0]? rests[1]?

/-- Day two of the trip: the next three deduplicated activities and the
next two deduplicated restaurants. -/
def dayTwo (r : Request) (acts : List Activity) (rests : List Restaurant) : DayPlan :=
  mkDayPlan (r.start_date + 1) r.group_size ((acts.drop 3).take 3) rests[2]? rests[3]?

/-- The total estimated trip cost, the sum of the two day costs. -/
def tripCost (r : Request) (acts : List Activity) (rests : List Restaurant) : ℚ :=
  (dayOne r acts rests).total_estimated_cost + (dayTwo r acts rests).total_estimated_cost

/-- Modelled from the spec: weather-derived recommendations of the missing
assembler, attached when weather data is present and omitted without error
otherwise (spec section 4.6). -/
def weatherRecommendations (ws : List WeatherForecast) : List String :=
  if ws.isEmpty then []
  else if ws.any (fun w => 60 ≤ w.rain_probability) then
    ["High rain probability expected, prefer indoor activities"]
  else
    ["Weather looks favorable for outdoor plans"]

/-- Modelled from the spec: the itinerary document built by the missing
assembler, with the derived totals, the unclamped budget utilization
percentage equal to cost over budget times 100, exactly two day plans and a
fixed non-empty emergency contact list (spec sections 3 and 4.6). -/
def assembleItinerary (r : Request) (b : ExternalDataBundle)
    (acts : List Activity) (rests : List Restaurant) (bb : BudgetBreakdown) :
    Itinerary :=
  { destination := r.destination
    total_budget := r.budget
    total_estimated_cost := tripCost r acts rests
    budget_utilization_percentage := tripCost r acts rests / r.budget * 100
    day_plans := [dayOne r acts rests, dayTwo r acts rests]
    budget_breakdown := bb
    recommendations := weatherRecommendations b.weather
    emergency_contacts :=
      ["Local emergency services: 112", "Nearest embassy or consulate"] }

/-- A successful orchestration run outcome: the itinerary together with the
per-request degraded flag (spec section 6). -/
structure RunResult where
  itinerary : Itinerary
  degraded : Bool
deriving DecidableEq, Repr, Inhabited

/-- Modelled from the spec: the missing Itinerary Assembler (spec section
4.6), a pure function from the request, the external data bundle with its
soft-failure flag and the three agent results to an itinerary or an
assembly error.  It fails only when both tier-1 agents failed and their
defaults are empty; every soft failure is absorbed into defaults and the
degraded flag. -/
def assemble (r : Request) (b : ExternalDataBundle) (soft : Bool)
    (e : AgentResult (List Activity)) (f : AgentResult (List Restaurant))
    (bud : AgentResult BudgetBreakdown) : Except HardError RunResult :=
  if e.isFailure && f.isFailure then .error .assembly
  else
    .ok ⟨assembleItinerary r b
          (dedupBy (fun a => a.name) (activitiesOf e))
          (dedupBy (fun x => x.name) (restaurantsOf f))
          (breakdownOf r bud),
        soft || e.isFailure || f.isFailure || bud.isFailure⟩

/-! ## Lemmas about the assembler -/

/-- An element of the deduplication fold is drawn from the accumulator or
from the traversed list. -/
theorem mem_dedup_foldl {α : Type} (key : α → String) (l : List α) :
    ∀ (acc : List α) (x : α),
      x ∈ l.foldl
        (fun acc a => if acc.any (fun b => key b == key a) then acc else acc ++ [a]) acc →
      x ∈ acc ∨ x ∈ l := by
  induction l with
  | nil =>
      intro acc x h
      exact Or.inl h
  | cons a as ih =>
      intro acc x h
      simp only [List.foldl_cons] at h
      by_cases hc : (acc.any (fun b => key b == key a)) = true
      · rw [if_pos hc] at h
        rcases ih acc x h with h1 | h1
        · exact Or.inl h1
        · exact Or.inr (List.mem_cons_of_mem a h1)
      · rw [if_neg hc] at h
        rcases ih (acc ++ [a]) x h with h1 | h1
        · rcases List.mem_append.mp h1 with h2 | h2
          · exact Or.inl h2
          · rw [List.mem_singleton.mp h2]
            exact Or.inr (List.mem_cons_self a as)
        · exact Or.inr (List.mem_cons_of_mem a h1)

/-- Deduplication only keeps elements of the input list. -/
theorem mem_dedupBy {α : Type} {key : α → String} {l : List α} {x : α}
    (h : x ∈ dedupBy key l) : x ∈ l := by
  rcases mem_dedup_foldl key l [] x h with h1 | h1
  · exact absurd h1 (List.not_mem_nil x)
  · exact h1

/-- The fee total of activities with non-negative fees is non-negative. -/
theorem activityFees_nonneg {acts : List Activity}
    (h : ∀ a ∈ acts, 0 ≤ a.entry_fee) : 0 ≤ activityFees acts := by
  unfold activityFees
  apply List.sum_nonneg
  intro q hq
  obtain ⟨a, ha, rfl⟩ := List.mem_map.mp hq
  exact h a ha

/-- The cost of an optional meal with non-negative per-person cost is
non-negative. -/
theorem mealCost_nonneg {o : Option Restaurant}
    (h : ∀ x ∈ o, 0 ≤ x.estimated_cost_per_person) : 0 ≤ mealCost o := by
  cases o with
  | none => simp [mealCost]
  | some x => exact h x rfl

/-- A day plan built from non-negative fees and meal costs has non-negative
derived cost. -/
theorem mkDayPlan_cost_nonneg (date g : Nat) (acts : List Activity)
    (lunch dinner : Option Restaurant)
    (ha : ∀ a ∈ acts, 0 ≤ a.entry_fee)
    (hl : ∀ x ∈ lunch, 0 ≤ x.estimated_cost_per_person)
    (hd : ∀ x ∈ dinner, 0 ≤ x.estimated_cost_per_person) :
    0 ≤ (mkDayPlan date g acts lunch dinner).total_estimated_cost := by
  unfold mkDayPlan
  exact add_nonneg (activityFees_nonneg ha)
    (mul_nonneg (Nat.cast_nonneg g)
      (add_nonneg (mealCost_nonneg hl) (mealCost_nonneg hd)))

/-- The trip cost over activities with non-negative fees and restaurants
with non-negative per-person costs is non-negative. -/
theorem tripCost_nonneg (r : Request) (acts : List Activity) (rests : List Restaurant)
    (ha : ∀ a ∈ acts, 0 ≤ a.entry_fee)
    (hr : ∀ x ∈ rests, 0 ≤ x.estimated_cost_per_person) :
    0 ≤ tripCost r acts rests := by
  have hopt : ∀ i : Nat, ∀ x ∈ rests[i]?, 0 ≤ x.estimated_cost_per_person := by
    intro i x hx
    exact hr x (List.getElem?_mem hx)
  unfold tripCost dayOne dayTwo
  exact add_nonneg
    (mkDayPlan_cost_nonneg _ _ _ _ _
      (fun a hm => ha a (List.take_subset 3 acts hm)) (hopt 0) (hopt 1))
    (mkDayPlan_cost_nonneg _ _ _ _ _
      (fun a hm => ha a (List.drop_subset 3 acts (List.take_subset 3 (acts.drop 3) hm)))
      (hopt 2) (hopt 3))

/-! ## Theorems for the gateway and the assembler -/

/-- Claim C4: when the weather source fails but places and transit succeed,
the run still assembles a valid itinerary whose weather-derived
recommendation set is empty and whose degraded flag is set; and for any
combination of source outcomes the assembly never fails because of a source
failure (its only error condition is both tier-1 agents failing). -/
theorem weather_failure_tolerated (r : Request) (ps : List Place) (ti : TransitInfo)
    (e : AgentResult (List Activity)) (f : AgentResult (List Restaurant))
    (bud : AgentResult BudgetBreakdown)
    (h : e.isFailure = false ∨ f.isFailure = false) :
    (∃ out : RunResult,
      assemble r (gateway .failed (.ok ps) (.ok ti)).1
          (gateway .failed (.ok ps) (.ok ti)).2 e f bud = .ok out ∧
      out.itinerary.recommendations = [] ∧
      out.degraded = true) ∧
    (∀ (w : SourceOutcome (List WeatherForecast)) (p : SourceOutcome (List Place))
        (t : SourceOutcome TransitInfo),
      ∃ out2 : RunResult,
        assemble r (gateway w p t).1 (gateway w p t).2 e f bud = .ok out2) := by
  have hcond : (e.isFailure && f.isFailure) = false := by
    rcases h with h | h <;> simp [h]
  constructor
  · refine ⟨⟨assembleItinerary r (gateway .failed (.ok ps) (.ok ti)).1
        (dedupBy (fun a => a.name) (activitiesOf e))
        (dedupBy (fun x => x.name) (restaurantsOf f))
        (breakdownOf r bud),
      (gateway .failed (.ok ps) (.ok ti)).2 || e.isFailure || f.isFailure ||
        bud.isFailure⟩, ?_, ?_, ?_⟩
    · unfold assemble
      rw [hcond]
      simp
    · simp [assembleItinerary, gateway, weatherRecommendations]
    · simp [gateway]
  · intro w p t
    refine ⟨⟨assembleItinerary r (gateway w p t).1
        (dedupBy (fun a => a.name) (activitiesOf e))
        (dedupBy (fun x => x.name) (restaurantsOf f))
        (breakdownOf r bud),
      (gateway w p t).2 || e.isFailure || f.isFailure || bud.isFailure⟩, ?_⟩
    unfold assemble
    rw [hcond]
    simp

/-- A request used by concrete witnesses. -/
def sampleRequest : Request :=
  { destination := "Paris, France"
    budget := 500
    budget_category := .moderate
    travel_preferences := ["culture", "food"]
    start_date := 30
    group_size := 1
    special_requirements := none }

/-- A transit value used by concrete witnesses. -/
def sampleTransit : TransitInfo := ⟨"metro day pass"⟩

/-- A succeeding Explorer result used by concrete witnesses. -/
def okExplorer : AgentResult (List Activity) :=
  .success [⟨"Louvre Museum", "culture", "Paris", 20, 120, 9⟩]

/-- A succeeding Food result used by concrete witnesses. -/
def okFood : AgentResult (List Restaurant) := .success []

/-- A succeeding Budget result used by concrete witnesses. -/
def okBudget : AgentResult BudgetBreakdown := .success (evenSplit 500)

/-- Witness for claim C4 at concrete request, sources and agent results. -/
theorem weather_failure_tolerated_witness :
    (okExplorer.isFailure = false ∨ okFood.isFailure = false) ∧
    ((∃ out : RunResult,
        assemble sampleRequest (gateway .failed (.ok []) (.ok sampleTransit)).1
            (gateway .failed (.ok []) (.ok sampleTransit)).2 okExplorer okFood okBudget =
          .ok out ∧
        out.itinerary.recommendations = [] ∧
        out.degraded = true) ∧
     (∀ (w : SourceOutcome (List WeatherForecast)) (p : SourceOutcome (List Place))
         (t : SourceOutcome TransitInfo),
       ∃ out2 : RunResult,
         assemble sampleRequest (gateway w p t).1 (gateway w p t).2
           okExplorer okFood okBudget = .ok out2)) :=
  ⟨Or.inl rfl,
   weather_failure_tolerated sampleRequest [] sampleTransit okExplorer okFood okBudget
     (Or.inl rfl)⟩

/-- Claim C5: every successfully assembled itinerary reports its budget
utilization percentage as total estimated cost over total budget times 100,
with no clamping; budget overage yields a successful itinerary with a
percentage above 100. -/
theorem budget_overage_reported (r : Request) (b : ExternalDataBundle) (soft : Bool)
    (e : AgentResult (List Activity)) (f : AgentResult (List Restaurant))
    (bud : AgentResult BudgetBreakdown) (out : RunResult)
    (h : assemble r b soft e f bud = .ok out) :
    out.itinerary.budget_utilization_percentage =
      out.itinerary.total_estimated_cost / out.itinerary.total_budget * 100 := by
  unfold assemble at h
  by_cases hc : (e.isFailure && f.isFailure) = true
  · rw [if_pos hc] at h
    exact absurd h (by simp)
  · rw [if_neg hc] at h
    simp only [Except.ok.injEq] at h
    subst h
    rfl

/-- The request of the budget-overage scenario: total budget 100. -/
def overageRequest : Request :=
  { destination := "Paris, France"
    budget := 100
    budget_category := .moderate
    travel_preferences := ["culture"]
    start_date := 30
    group_size := 1
    special_requirements := none }

/-- An Explorer result whose single activity costs 150. -/
def overageExplorer : AgentResult (List Activity) :=
  .success [⟨"Louvre Museum", "culture", "Paris", 150, 120, 9⟩]

/-- The bundle of a run with every source failed. -/
def emptyBundle : ExternalDataBundle := ⟨[], [], none⟩

/-- The run result of the budget-overage scenario. -/
def overageOut : RunResult :=
  ((assemble overageRequest emptyBundle false overageExplorer (.success [])
      (.success (evenSplit 100))).toOption).getD default

/-- Witness for claim C5: the budget 100 and cost 150 scenario assembles
successfully and reports utilization 150. -/
theorem budget_overage_reported_witness :
    assemble overageRequest emptyBundle false overageExplorer (.success [])
        (.success (evenSplit 100)) = .ok overageOut ∧
    overageOut.itinerary.budget_utilization_percentage =
      overageOut.itinerary.total_estimated_cost /
        overageOut.itinerary.total_budget * 100 ∧
    overageOut.itinerary.total_budget = 100 ∧
    overageOut.itinerary.total_estimated_cost = 150 ∧
    overageOut.itinerary.budget_utilization_percentage = 150 := by
  refine ⟨rfl,
    budget_overage_reported overageRequest emptyBundle false overageExplorer
      (.success []) (.success (evenSplit 100)) overageOut rfl, ?_, ?_, ?_⟩
  all_goals
    norm_num [overageOut, assemble, assembleItinerary, tripCost, dayOne, dayTwo,
      mkDayPlan, activityFees, mealCost, dedupBy, activitiesOf, restaurantsOf,
      overageExplorer, overageRequest, emptyBundle, evenSplit,
      AgentResult.isFailure, Except.toOption]

/-- The end-to-end Paris request of the spec test scenario. -/
def parisRequest : Request :=
  { destination := "Paris, France"
    budget := 500
    budget_category := .moderate
    travel_preferences := ["culture", "food"]
    start_date := 30
    group_size := 1
    special_requirements := none }

/-- Claim C6: every successful run for the Paris request produces an
itinerary with exactly two day plans, total budget 500, a non-negative
total estimated cost (given the agent payloads carry non-negative fees and
per-person costs) and a non-empty emergency contact list. -/
theorem paris_end_to_end (b : ExternalDataBundle) (soft : Bool)
    (e : AgentResult (List Activity)) (f : AgentResult (List Restaurant))
    (bud : AgentResult BudgetBreakdown) (out : RunResult)
    (hfees : ∀ a ∈ activitiesOf e, 0 ≤ a.entry_fee)
    (hcosts : ∀ x ∈ restaurantsOf f, 0 ≤ x.estimated_cost_per_person)
    (h : assemble parisRequest b soft e f bud = .ok out) :
    out.itinerary.day_plans.length = 2 ∧
    out.itinerary.total_budget = 500 ∧
    0 ≤ out.itinerary.total_estimated_cost ∧
    out.itinerary.emergency_contacts ≠ [] := by
  unfold assemble at h
  by_cases hc : (e.isFailure && f.isFailure) = true
  · rw [if_pos hc] at h
    exact absurd h (by simp)
  · rw [if_neg hc] at h
    simp only [Except.ok.injEq] at h
    subst h
    refine ⟨rfl, rfl, ?_, by simp [assembleItinerary]⟩
    change 0 ≤ tripCost parisRequest
      (dedupBy (fun a => a.name) (activitiesOf e))
      (dedupBy (fun x => x.name) (restaurantsOf f))
    apply tripCost_nonneg
    · intro a ha
      exact hfees a (mem_dedupBy ha)
    · intro x hx
      exact hcosts x (mem_dedupBy hx)

/-- The external bundle of the concrete Paris scenario. -/
def parisBundle : ExternalDataBundle :=
  ⟨[⟨30, 22, "sunny", 40, 3, 10⟩], [⟨"Musee d Orsay", "culture", 9, "Paris"⟩],
   some ⟨"metro day pass"⟩⟩

/-- The Explorer payload of the concrete Paris scenario. -/
def parisExplorer : AgentResult (List Activity) :=
  .success [⟨"Louvre Museum", "culture", "Paris", 20, 120, 9⟩,
            ⟨"Eiffel Tower", "landmark", "Paris", 25, 90, 10⟩]

/-- The Food payload of the concrete Paris scenario. -/
def parisFood : AgentResult (List Restaurant) :=
  .success [⟨"Le Bistro", "french", "Paris", 30, 5⟩]

/-- The run result of the concrete Paris scenario. -/
def parisOut : RunResult :=
  ((assemble parisRequest parisBundle false parisExplorer parisFood
      (.success (evenSplit 500))).toOption).getD default

/-- Witness for claim C6 at the concrete Paris scenario. -/
theorem paris_end_to_end_witness :
    (∀ a ∈ activitiesOf parisExplorer, 0 ≤ a.entry_fee) ∧
    (∀ x ∈ restaurantsOf parisFood, 0 ≤ x.estimated_cost_per_person) ∧
    assemble parisRequest parisBundle false parisExplorer parisFood
        (.success (evenSplit 500)) = .ok parisOut ∧
    (parisOut.itinerary.day_plans.length = 2 ∧
     parisOut.itinerary.total_budget = 500 ∧
     0 ≤ parisOut.itinerary.total_estimated_cost ∧
     parisOut.itinerary.emergency_contacts ≠ []) :=
  ⟨by decide, by decide, rfl,
   paris_end_to_end parisBundle false parisExplorer parisFood
     (.success (evenSplit 500)) parisOut (by decide) (by decide) rfl⟩

end TravelBuddy
